import Mathlib

/-!
Shallow embedding of the model-cache and model-selection logic of
`src/backend/src/agent/openrouter.py` and `src/backend/src/agent/callbacks.py`.

Python values that appear in payloads and state containers are modelled by
`PyVal`; code paths that can raise a Python exception return
`Except PyErr _`.  The module-level cache of `openrouter.py` is modelled by
an explicit `CacheState` that each call threads through; `time.monotonic()`
readings are modelled by an `Int`-valued clock passed at each call site.
-/

namespace Blacki

/-- Python exception kinds that the embedded code paths can raise. -/
inductive PyErr where
  | attributeError
  | typeError
deriving DecidableEq, Repr

/-- Model of a Python value as produced by `json.loads` or held in the ADK
state container: `None`, booleans, integers, strings, lists and dicts. -/
inductive PyVal where
  | none
  | bool (b : Bool)
  | int (n : Int)
  | str (s : String)
  | list (elems : List PyVal)
  | dict (items : List (String × PyVal))

/-- Python `d.get(key, dflt)` on the item list of a dict: the stored value
if the key is present (even if that value is `None`), else the default. -/
def pyDictGet (items : List (String × PyVal)) (key : String) (dflt : PyVal) : PyVal :=
  match List.lookup key items with
  | some v => v
  | Option.none => dflt

/-- Python `v.get(key, dflt)` on an arbitrary value: succeeds on a dict,
raises `AttributeError` on any non-dict value (list, str, int, None, ...). -/
def PyVal.get (v : PyVal) (key : String) (dflt : PyVal) : Except PyErr PyVal :=
  match v with
  | .dict items => Except.ok (pyDictGet items key dflt)
  | _ => Except.error PyErr.attributeError

/-- Python truthiness test for a `PyVal` being a string
(`isinstance(v, str)`). -/
def PyVal.isStr : PyVal → Bool
  | .str _ => true
  | _ => false

/-- Outcome of the HTTP fetch in `fetch_models`: the API key may be absent,
`urlopen`/`json.loads` may raise (both caught by the `try` block), or a JSON
payload may be obtained and parsed into a Python value. -/
inductive FetchOutcome where
  | missingApiKey
  | transportError
  | payload (data : PyVal)

/-- Embedding of `fetch_models` (openrouter.py lines 52-79).  On a missing
key or a caught transport/parse error it returns `[]`.  On a parsed payload
it evaluates `data.get("data")` — which raises `AttributeError` when the
payload is not a dict, since that line sits outside the `try` block — and
returns the `data` entry when it is a list, else `[]`. -/
def fetch_models : FetchOutcome → Except PyErr (List PyVal)
  | .missingApiKey => Except.ok []
  | .transportError => Except.ok []
  | .payload data =>
    match PyVal.get data "data" PyVal.none with
    | Except.error e => Except.error e
    | Except.ok (PyVal.list models) => Except.ok models
    | Except.ok _ => Except.ok []

/-- One step of the set comprehension in `_refresh_cache`: evaluate
`m.get("id")` (raising `AttributeError` on a non-dict record) and report the
id when it is a string. -/
def modelIdIfStr (m : PyVal) : Except PyErr (Option String) :=
  match m with
  | .dict items =>
    match pyDictGet items "id" PyVal.none with
    | PyVal.str s => Except.ok (some s)
    | _ => Except.ok Option.none
  | _ => Except.error PyErr.attributeError

/-- Embedding of `ids = {m.get("id") for m in models if isinstance(m.get("id"), str)}`
in `_refresh_cache`, as the left-to-right list of string ids (the Python set
is modelled by this list up to membership). -/
def computeIds : List PyVal → Except PyErr (List String)
  | [] => Except.ok []
  | m :: ms =>
    match modelIdIfStr m with
    | Except.error e => Except.error e
    | Except.ok Option.none => computeIds ms
    | Except.ok (some s) =>
      match computeIds ms with
      | Except.error e => Except.error e
      | Except.ok rest => Except.ok (s :: rest)

/-- One simplified record built by `_refresh_cache` for the UI listing. -/
structure SimplifiedModel where
  id : String
  name : PyVal
  context_length : PyVal

/-- The record body of the `simplified` list comprehension in
`_refresh_cache`: `{"id": m.get("id"), "name": m.get("name", m.get("id", "unknown")),
"context_length": m.get("context_length")}`, for a dict whose `"id"` entry
is the string `s`. -/
def simplifyModel (items : List (String × PyVal)) (s : String) : SimplifiedModel :=
  { id := s
  , name := pyDictGet items "name" (pyDictGet items "id" (PyVal.str "unknown"))
  , context_length := pyDictGet items "context_length" PyVal.none }

/-- Embedding of the `simplified` list comprehension in `_refresh_cache`:
keeps exactly the records whose `"id"` entry is a string, raising
`AttributeError` on a non-dict record. -/
def computeSimplified : List PyVal → Except PyErr (List SimplifiedModel)
  | [] => Except.ok []
  | m :: ms =>
    match m with
    | PyVal.dict items =>
      match pyDictGet items "id" PyVal.none with
      | PyVal.str s =>
        match computeSimplified ms with
        | Except.error e => Except.error e
        | Except.ok rest => Except.ok (simplifyModel items s :: rest)
      | _ => computeSimplified ms
    | _ => Except.error PyErr.attributeError

/-- The snapshot stored in the module-level `_cache` dict:
`{"ids": ids, "models": simplified}`. -/
structure CacheSnapshot where
  ids : List String
  models : List SimplifiedModel

/-- The module-level mutable state of openrouter.py: `_cache` (None or a
snapshot) and `_cache_updated_at`. -/
structure CacheState where
  cache : Option CacheSnapshot
  updatedAt : Int

/-- The state at process start: `_cache = None`, `_cache_updated_at = 0.0`. -/
def initialCacheState : CacheState := { cache := Option.none, updatedAt := 0 }

/-- TTL constant `CACHE_TTL_SECONDS = 60`. -/
def CACHE_TTL_SECONDS : Int := 60

/-- The staleness guard shared by both getters:
`_cache is None or (time.monotonic() - _cache_updated_at) >= CACHE_TTL_SECONDS`. -/
def needsRefresh (st : CacheState) (now : Int) : Bool :=
  st.cache.isNone || decide (now - st.updatedAt ≥ CACHE_TTL_SECONDS)

/-- Embedding of `_refresh_cache` (openrouter.py lines 29-43): fetch, build
the id set and the simplified listing, and store them as the new snapshot
with a fresh timestamp.  An exception raised by any step propagates and
leaves the state unchanged (the caller receives `Except.error`). -/
def _refresh_cache (o : FetchOutcome) (now : Int) : Except PyErr CacheState :=
  match fetch_models o with
  | Except.error e => Except.error e
  | Except.ok models =>
    match computeIds models with
    | Except.error e => Except.error e
    | Except.ok ids =>
      match computeSimplified models with
      | Except.error e => Except.error e
      | Except.ok simplified =>
        Except.ok { cache := some { ids := ids, models := simplified }, updatedAt := now }

/-- Embedding of `get_cached_model_ids` (openrouter.py lines 82-91).  The
body runs under `_cache_lock`; `now` is the `time.monotonic()` reading taken
inside the lock.  Returns the id list, the (possibly refreshed) cache state,
and whether this call performed a refresh (i.e. invoked the fetch).
Subscripting `_cache["ids"]` on a `None` cache would raise `TypeError`. -/
def get_cached_model_ids (o : FetchOutcome) (now : Int) (st : CacheState) :
    Except PyErr (List String × CacheState × Bool) :=
  if needsRefresh st now then
    match _refresh_cache o now with
    | Except.error e => Except.error e
    | Except.ok st' =>
      match st'.cache with
      | some snap => Except.ok (snap.ids, st', true)
      | Option.none => Except.error PyErr.typeError
  else
    match st.cache with
    | some snap => Except.ok (snap.ids, st, false)
    | Option.none => Except.error PyErr.typeError

/-- Embedding of `get_models_for_ui` (openrouter.py lines 93-102), with the
same lock/guard structure as `get_cached_model_ids` but returning the
simplified listing. -/
def get_models_for_ui (o : FetchOutcome) (now : Int) (st : CacheState) :
    Except PyErr (List SimplifiedModel × CacheState × Bool) :=
  if needsRefresh st now then
    match _refresh_cache o now with
    | Except.error e => Except.error e
    | Except.ok st' =>
      match st'.cache with
      | some snap => Except.ok (snap.models, st', true)
      | Option.none => Except.error PyErr.typeError
  else
    match st.cache with
    | some snap => Except.ok (snap.models, st, false)
    | Option.none => Except.error PyErr.typeError

/-- The simplified listing held by a state, for stating what a fresh read
returns (`[]` only in the unreachable `None` case). -/
def CacheState.cachedModels (st : CacheState) : List SimplifiedModel :=
  match st.cache with
  | some snap => snap.models
  | Option.none => []

/-- Sequentialization of N callers of `get_cached_model_ids` by the module
lock `_cache_lock`: the lock admits the callers one at a time, in the order
given by the list of their `time.monotonic()` readings (each reading is
taken inside the lock).  Returns the final cache state and the number of
fetches performed.  A call that raises still invoked the fetch during its
refresh attempt (the only reachable error source), and the exception
propagates to that caller only while later callers proceed. -/
def runCallers (o : FetchOutcome) : CacheState → List Int → CacheState × Nat
  | st, [] => (st, 0)
  | st, now :: rest =>
    match get_cached_model_ids o now st with
    | Except.ok (_, st', fetched) =>
      let next := runCallers o st' rest
      (next.1, (if fetched then 1 else 0) + next.2)
    | Except.error _ =>
      let next := runCallers o st rest
      (next.1, 1 + next.2)

/-- Sample fetch outcome: a well-formed payload listing one model `"m1"`. -/
def sampleOutcome : FetchOutcome :=
  FetchOutcome.payload (PyVal.dict [("data", PyVal.list [PyVal.dict [("id", PyVal.str "m1")]])])

/-- The cache state produced by refreshing on `sampleOutcome` at time `t`. -/
def sampleStateAt (t : Int) : CacheState :=
  { cache := some
      { ids := ["m1"]
      , models := [{ id := "m1", name := PyVal.str "m1", context_length := PyVal.none }] }
  , updatedAt := t }

/-- Sample fetch outcome with a mixed `data` array: two records with string
ids (one lacking `name`, one lacking `context_length`) and one record whose
id is not a string. -/
def sampleMixedOutcome : FetchOutcome :=
  FetchOutcome.payload (PyVal.dict [("data", PyVal.list
    [ PyVal.dict [("id", PyVal.str "a"), ("context_length", PyVal.int 8)]
    , PyVal.dict [("id", PyVal.int 3)]
    , PyVal.dict [("id", PyVal.str "b"), ("name", PyVal.str "B")]])])

/-- The snapshot that refreshing on `sampleMixedOutcome` stores. -/
def sampleMixedSnap : CacheSnapshot :=
  { ids := ["a", "b"]
  , models :=
      [ { id := "a", name := PyVal.str "a", context_length := PyVal.int 8 }
      , { id := "b", name := PyVal.str "B", context_length := PyVal.none } ] }

/-- State key `SELECTED_MODEL_STATE_KEY = "selectedModel"` from callbacks.py. -/
def SELECTED_MODEL_STATE_KEY : String := "selectedModel"

/-- Python `str.strip()` on the character list of a string: drop leading and
trailing whitespace (modelled with `Char.isWhitespace`). -/
def pyStrip (s : String) : String :=
  String.mk (((s.data.dropWhile Char.isWhitespace).reverse.dropWhile Char.isWhitespace).reverse)

/-- Embedding of `LoggingCallbacks._read_selected_model_from_state`
(callbacks.py lines 63-77): read `state["selectedModel"]`; return `None`
when it is absent or not a string; otherwise strip it and return `None` when
the stripped form is empty, else the stripped form.  The ADK state dict is
modelled as an association list. -/
def _read_selected_model_from_state (state : List (String × PyVal)) : Option String :=
  match List.lookup SELECTED_MODEL_STATE_KEY state with
  | some (PyVal.str s) =>
    let normalized := pyStrip s
    if normalized = "" then Option.none else some normalized
  | _ => Option.none

/-- The provider tag `"openrouter/"` used by the wire-format rewrite. -/
def OPENROUTER_TAG : String := "openrouter/"

/-- Embedding of `model_for_request.lower().startswith("openrouter/")` from
`_apply_selected_model_to_request`, on the underlying character lists. -/
def lowerStartsWithOpenrouter (s : String) : Bool :=
  OPENROUTER_TAG.data.isPrefixOf (s.data.map Char.toLower)

/-- Embedding of `LoggingCallbacks._apply_selected_model_to_request`
(callbacks.py lines 79-92), as the string written to `llm_request.model`:
prepend `"openrouter/"` unless the id already starts with it
(case-insensitive check). -/
def _apply_selected_model_to_request (selected : String) : String :=
  if lowerStartsWithOpenrouter selected then selected
  else OPENROUTER_TAG ++ selected

/-- Embedding of `"/" in selected_model` (single-character substring test). -/
def containsSlash (s : String) : Bool :=
  s.data.contains '/'

/-- Embedding of the `is_allowed` computation in
`LoggingCallbacks.before_model` (callbacks.py lines 177-180):
`is_allowed = selected_model in allowed_ids`, then, when that is false and
the allow-list is empty, `is_allowed = "/" in selected_model`. -/
def is_allowed (allowed_ids : List String) (selected_model : String) : Bool :=
  let a := allowed_ids.contains selected_model
  if !a && allowed_ids.isEmpty then containsSlash selected_model else a

/-- Origin of the effective model of a request, as in the spec's
`ModelSelectionDecision`: `requested` when the selected model was applied to
the request, `fallback` when the request keeps its prior model. -/
inductive Source where
  | requested
  | fallback
deriving DecidableEq, Repr

/-- Observable outcome of the selection part of `before_model`: the final
value of `llm_request.model`, whether a warning-level log line was emitted,
the decision source, and whether `_get_allowed_model_ids()` (hence the
cache) was consulted. -/
structure BMResult where
  model : PyVal
  warned : Bool
  source : Source
  consultedCache : Bool

/-- Embedding of the `else` branch of the selection logic in
`LoggingCallbacks.before_model` (callbacks.py lines 176-201), run when a
selected model was read from state.  `allowed_ids` is the set returned by
`_get_allowed_model_ids()`; `assignRaises` models whether the assignment
`llm_request.model = model_for_request` raises (the surrounding `try` block
catches any such exception, logs a warning, and leaves the request's model
field at its prior value `reqModel`). -/
def before_model_select (allowed_ids : List String) (selected_model : String)
    (assignRaises : Bool) (reqModel : PyVal) : BMResult :=
  if is_allowed allowed_ids selected_model then
    if assignRaises then
      { model := reqModel, warned := true, source := Source.fallback, consultedCache := true }
    else
      { model := PyVal.str (_apply_selected_model_to_request selected_model)
      , warned := false, source := Source.requested, consultedCache := true }
  else
    { model := reqModel, warned := true, source := Source.fallback, consultedCache := true }

/-- Embedding of the selection logic of `LoggingCallbacks.before_model`
(callbacks.py lines 166-201): read the selected model from state; when none
is read, keep the request's model and do not consult the cache; otherwise
run the allow-list check and transformation. -/
def before_model (state : List (String × PyVal)) (allowed_ids : List String)
    (assignRaises : Bool) (reqModel : PyVal) : BMResult :=
  match _read_selected_model_from_state state with
  | Option.none =>
    { model := reqModel, warned := false, source := Source.fallback, consultedCache := false }
  | some sel => before_model_select allowed_ids sel assignRaises reqModel

example : fetch_models (FetchOutcome.payload (PyVal.list [])) = Except.error PyErr.attributeError := rfl

example : _read_selected_model_from_state [("selectedModel", PyVal.str "  foo  ")] = some "foo" := by decide

example : _apply_selected_model_to_request "OpenRouter/foo" = "OpenRouter/foo" := by decide

example : _apply_selected_model_to_request "foo" = "openrouter/foo" := by decide

example : is_allowed [] "vendor/model-x" = true := by decide

example : is_allowed [] "bareid" = false := by decide

example : is_allowed ["a"] "vendor/model-x" = false := by decide

/-! ### Selection-gate theorems -/

theorem isPrefixOf_append_self (l r : List Char) : l.isPrefixOf (l ++ r) = true := by
  induction l with
  | nil => simp [List.isPrefixOf]
  | cons a as ih => simp [List.isPrefixOf, ih]

theorem lowerStartsWithOpenrouter_tag_append (s : String) :
    lowerStartsWithOpenrouter (OPENROUTER_TAG ++ s) = true := by
  unfold lowerStartsWithOpenrouter
  rw [String.data_append, List.map_append]
  have h : OPENROUTER_TAG.data.map Char.toLower = OPENROUTER_TAG.data := by decide
  rw [h]
  exact isPrefixOf_append_self _ _

/-- C5: the wire-format transformation `_apply_selected_model_to_request` is
case-insensitive and idempotent: a string already bearing the
`"openrouter/"` tag under case-insensitive comparison is left unchanged, any
other string gets exactly one `"openrouter/"` tag prepended, and applying
the transformation twice equals applying it once. -/
theorem apply_selected_model_idempotent (s : String) :
    (lowerStartsWithOpenrouter s = true → _apply_selected_model_to_request s = s) ∧
    (lowerStartsWithOpenrouter s = false →
      _apply_selected_model_to_request s = OPENROUTER_TAG ++ s) ∧
    _apply_selected_model_to_request (_apply_selected_model_to_request s)
      = _apply_selected_model_to_request s := by
  refine ⟨fun h => by simp [_apply_selected_model_to_request, h],
    fun h => by simp [_apply_selected_model_to_request, h], ?_⟩
  by_cases h : lowerStartsWithOpenrouter s
  · simp [_apply_selected_model_to_request, h]
  · simp only [_apply_selected_model_to_request, h]
    simp [lowerStartsWithOpenrouter_tag_append]

/-- Witness for `apply_selected_model_idempotent` at the spec's examples:
`"OpenRouter/foo"` is left unchanged (case-insensitive match), `"foo"` gains
the tag once, and both are fixed points of a second application. -/
theorem apply_selected_model_idempotent_witness :
    _apply_selected_model_to_request "OpenRouter/foo" = "OpenRouter/foo" ∧
    _apply_selected_model_to_request "foo" = "openrouter/foo" ∧
    _apply_selected_model_to_request (_apply_selected_model_to_request "foo")
      = _apply_selected_model_to_request "foo" := by
  refine ⟨(apply_selected_model_idempotent "OpenRouter/foo").1 (by decide), ?_, ?_⟩
  · have h := (apply_selected_model_idempotent "foo").2.1 (by decide)
    exact h.trans (by decide)
  · exact (apply_selected_model_idempotent "foo").2.2

/-- C2: when the allow-list returned by the cache is empty, a requested id
is accepted exactly when it contains a `"/"`: a provider-qualified id is
transformed and written to the request, while a bare id is rejected, leaves
the request's model unchanged, and records a warning. -/
theorem empty_allowlist_slash_policy (sel : String) (req : PyVal) :
    (containsSlash sel = true →
      before_model_select [] sel false req
        = { model := PyVal.str (_apply_selected_model_to_request sel)
          , warned := false, source := Source.requested, consultedCache := true }) ∧
    (containsSlash sel = false → ∀ b : Bool,
      before_model_select [] sel b req
        = { model := req, warned := true, source := Source.fallback, consultedCache := true }) := by
  constructor
  · intro h
    simp [before_model_select, is_allowed, h]
  · intro h b
    simp [before_model_select, is_allowed, h]

/-- Witness for `empty_allowlist_slash_policy` at the spec's examples:
with an empty allow-list, `"vendor/model-x"` is accepted and transformed
while `"bareid"` is rejected and the request keeps its prior model. -/
theorem empty_allowlist_slash_policy_witness :
    before_model_select [] "vendor/model-x" false (PyVal.str "prior")
      = { model := PyVal.str "openrouter/vendor/model-x"
        , warned := false, source := Source.requested, consultedCache := true } ∧
    before_model_select [] "bareid" false (PyVal.str "prior")
      = { model := PyVal.str "prior"
        , warned := true, source := Source.fallback, consultedCache := true } := by
  constructor
  · have h := (empty_allowlist_slash_policy "vendor/model-x" (PyVal.str "prior")).1 (by decide)
    rw [h]
    have ha : _apply_selected_model_to_request "vendor/model-x" = "openrouter/vendor/model-x" := by
      decide
    rw [ha]
  · exact (empty_allowlist_slash_policy "bareid" (PyVal.str "prior")).2 (by decide) false

/-- C3: against a non-empty allow-list, a member id yields decision source
`requested` with the request's model set to the transformed id, while a
non-member id yields decision source `fallback`, leaves the request's model
unchanged, and records a warning. -/
theorem nonempty_allowlist_membership (sel : String) (allowed : List String) (req : PyVal)
    (hne : allowed ≠ []) :
    (sel ∈ allowed →
      before_model_select allowed sel false req
        = { model := PyVal.str (_apply_selected_model_to_request sel)
          , warned := false, source := Source.requested, consultedCache := true }) ∧
    (sel ∉ allowed → ∀ b : Bool,
      before_model_select allowed sel b req
        = { model := req, warned := true, source := Source.fallback, consultedCache := true }) := by
  constructor
  · intro h
    simp [before_model_select, is_allowed, h]
  · intro h b
    simp [before_model_select, is_allowed, h, hne]

/-- Witness for `nonempty_allowlist_membership`: with allow-list
`["vendor/m1", "vendor/m2"]`, the member `"vendor/m1"` is accepted and
transformed while the non-member `"vendor/m9"` falls back with a warning. -/
theorem nonempty_allowlist_membership_witness :
    before_model_select ["vendor/m1", "vendor/m2"] "vendor/m1" false PyVal.none
      = { model := PyVal.str "openrouter/vendor/m1"
        , warned := false, source := Source.requested, consultedCache := true } ∧
    before_model_select ["vendor/m1", "vendor/m2"] "vendor/m9" true PyVal.none
      = { model := PyVal.none
        , warned := true, source := Source.fallback, consultedCache := true } := by
  constructor
  · have h := (nonempty_allowlist_membership "vendor/m1" ["vendor/m1", "vendor/m2"] PyVal.none
      (by decide)).1 (by decide)
    rw [h]
    have ha : _apply_selected_model_to_request "vendor/m1" = "openrouter/vendor/m1" := by decide
    rw [ha]
  · exact (nonempty_allowlist_membership "vendor/m9" ["vendor/m1", "vendor/m2"] PyVal.none
      (by decide)).2 (by decide) true

/-- C4: when the `selectedModel` state entry is absent, not a string, or
blank after stripping, the decision is fallback: the request's model is left
unchanged and the allow-list (hence the cache) is never consulted, for every
cache result and apply outcome. -/
theorem blank_or_missing_selected_model (state : List (String × PyVal))
    (allowed : List String) (b : Bool) (req : PyVal)
    (h : List.lookup SELECTED_MODEL_STATE_KEY state = Option.none ∨
      (∃ v, List.lookup SELECTED_MODEL_STATE_KEY state = some v ∧ v.isStr = false) ∨
      (∃ s, List.lookup SELECTED_MODEL_STATE_KEY state = some (PyVal.str s) ∧ pyStrip s = "")) :
    before_model state allowed b req
      = { model := req, warned := false, source := Source.fallback, consultedCache := false } := by
  have hread : _read_selected_model_from_state state = Option.none := by
    rcases h with h | ⟨v, hv, hstr⟩ | ⟨s, hs, hblank⟩
    · simp [_read_selected_model_from_state, h]
    · cases v <;> simp_all [_read_selected_model_from_state, PyVal.isStr]
    · simp [_read_selected_model_from_state, hs, hblank]
  simp [before_model, hread]

/-- Witness for `blank_or_missing_selected_model`: a whitespace-only
`selectedModel` value yields fallback without consulting a non-empty
allow-list, and the request keeps its prior model. -/
theorem blank_or_missing_selected_model_witness :
    before_model [("selectedModel", PyVal.str "   ")] ["vendor/m1"] false (PyVal.str "prior")
      = { model := PyVal.str "prior", warned := false
        , source := Source.fallback, consultedCache := false } := by
  exact blank_or_missing_selected_model [("selectedModel", PyVal.str "   ")] ["vendor/m1"]
    false (PyVal.str "prior")
    (Or.inr (Or.inr ⟨"   ", rfl, by decide⟩))

/-- C6: when the selected model is accepted but applying it to the request
raises, the exception is caught, a warning is logged, the request's model
field retains its prior value, and the hook returns normally (the embedded
function is total, so a result is always produced). -/
theorem apply_failure_caught (allowed : List String) (sel : String) (req : PyVal)
    (h : is_allowed allowed sel = true) :
    before_model_select allowed sel true req
      = { model := req, warned := true, source := Source.fallback, consultedCache := true } := by
  simp [before_model_select, h]

/-- Witness for `apply_failure_caught`: an allowed model whose application
raises leaves the request's prior model in place and logs a warning. -/
theorem apply_failure_caught_witness :
    before_model_select ["vendor/m1"] "vendor/m1" true (PyVal.str "prior")
      = { model := PyVal.str "prior", warned := true
        , source := Source.fallback, consultedCache := true } :=
  apply_failure_caught ["vendor/m1"] "vendor/m1" (PyVal.str "prior") (by decide)

/-- C9: the selected model read from state is stripped of surrounding
whitespace before any use: on a state holding the string `s`, `before_model`
behaves exactly as the selection core run on `pyStrip s` — so the stripped
form is the value checked against the allow-list — and on acceptance the
value written to the request is the transform of the stripped form. -/
theorem stripped_model_used (s : String) (allowed : List String) (b : Bool) (req : PyVal)
    (h : pyStrip s ≠ "") :
    before_model [(SELECTED_MODEL_STATE_KEY, PyVal.str s)] allowed b req
      = before_model_select allowed (pyStrip s) b req ∧
    (is_allowed allowed (pyStrip s) = true →
      (before_model [(SELECTED_MODEL_STATE_KEY, PyVal.str s)] allowed false req).model
        = PyVal.str (_apply_selected_model_to_request (pyStrip s))) := by
  have hread : _read_selected_model_from_state [(SELECTED_MODEL_STATE_KEY, PyVal.str s)]
      = some (pyStrip s) := by
    simp [_read_selected_model_from_state, List.lookup, h]
  constructor
  · simp [before_model, hread]
  · intro ha
    simp [before_model, hread, before_model_select, ha]

/-- Witness for `stripped_model_used`: state value `"  foo  "` is checked
and applied as `"foo"`, so the request's model becomes
`"openrouter/foo"` when `"foo"` is in the allow-list. -/
theorem stripped_model_used_witness :
    (before_model [(SELECTED_MODEL_STATE_KEY, PyVal.str "  foo  ")] ["foo"] false
      PyVal.none).model = PyVal.str "openrouter/foo" := by
  have h := (stripped_model_used "  foo  " ["foo"] false PyVal.none (by decide)).2 (by decide)
  rw [h]
  exact congrArg PyVal.str (by decide)

/-! ### Cache theorems -/

/-- C1 fails on the code: `data.get("data")` in `fetch_models` sits outside
the `try` block, so a payload that parses to a non-dict JSON value (a list
or a string) raises `AttributeError` out of both getters; likewise
`m.get("id")` in `_refresh_cache` raises on a non-dict entry of the `data`
array.  This theorem evaluates the embedded getters at those inputs. -/
theorem malformed_payload_raises :
    get_cached_model_ids (FetchOutcome.payload (PyVal.list [])) 0 initialCacheState
      = Except.error PyErr.attributeError ∧
    get_models_for_ui (FetchOutcome.payload (PyVal.str "oops")) 0 initialCacheState
      = Except.error PyErr.attributeError ∧
    get_cached_model_ids
        (FetchOutcome.payload (PyVal.dict [("data", PyVal.list [PyVal.str "x"])])) 0
        initialCacheState
      = Except.error PyErr.attributeError :=
  ⟨rfl, rfl, rfl⟩

theorem refresh_ok_shape (o : FetchOutcome) (t : Int) (st' : CacheState)
    (h : _refresh_cache o t = Except.ok st') :
    st'.updatedAt = t ∧ ∃ snap, st'.cache = some snap := by
  unfold _refresh_cache at h
  split at h
  · exact absurd h (by simp)
  · split at h
    · exact absurd h (by simp)
    · split at h
      · exact absurd h (by simp)
      · injection h with h
        subst h
        exact ⟨rfl, _, rfl⟩

theorem get_ids_fresh (o : FetchOutcome) (t : Int) (st : CacheState) (snap : CacheSnapshot)
    (hc : st.cache = some snap) (ht : t - st.updatedAt < CACHE_TTL_SECONDS) :
    get_cached_model_ids o t st = Except.ok (snap.ids, st, false) := by
  have hn : needsRefresh st t = false := by
    simp [needsRefresh, hc, CACHE_TTL_SECONDS]
    simp [CACHE_TTL_SECONDS] at ht
    omega
  simp [get_cached_model_ids, hn, hc]

theorem get_models_fresh (o : FetchOutcome) (t : Int) (st : CacheState) (snap : CacheSnapshot)
    (hc : st.cache = some snap) (ht : t - st.updatedAt < CACHE_TTL_SECONDS) :
    get_models_for_ui o t st = Except.ok (snap.models, st, false) := by
  have hn : needsRefresh st t = false := by
    simp [needsRefresh, hc, CACHE_TTL_SECONDS]
    simp [CACHE_TTL_SECONDS] at ht
    omega
  simp [get_models_for_ui, hn, hc]

/-- C7: after a successful call at time `t₁`, any call at a time `t₂` within
TTL of the stored snapshot's refresh timestamp returns the identical
snapshot (same ids, same state) without invoking the fetch, for both
getters; and the first call performed a refresh exactly when no snapshot
existed or the elapsed time since the last refresh was at least the TTL. -/
theorem ttl_cache_idempotent (o : FetchOutcome) (st : CacheState) (t₁ t₂ : Int)
    (ids : List String) (st₁ : CacheState) (f₁ : Bool)
    (h₁ : get_cached_model_ids o t₁ st = Except.ok (ids, st₁, f₁))
    (h₂ : t₂ - st₁.updatedAt < CACHE_TTL_SECONDS) :
    get_cached_model_ids o t₂ st₁ = Except.ok (ids, st₁, false) ∧
    get_models_for_ui o t₂ st₁ = Except.ok (st₁.cachedModels, st₁, false) ∧
    f₁ = (st.cache.isNone || decide (t₁ - st.updatedAt ≥ CACHE_TTL_SECONDS)) := by
  have hshape : ∃ snap, st₁.cache = some snap ∧ ids = snap.ids ∧ f₁ = needsRefresh st t₁ := by
    unfold get_cached_model_ids at h₁
    split at h₁
    next hguard =>
      split at h₁
      · exact absurd h₁ (by simp)
      next st' hrefresh =>
        split at h₁
        next snap hsnap =>
          injection h₁ with h₁
          obtain ⟨hids, hrest⟩ := Prod.mk.injEq .. ▸ h₁
          obtain ⟨hst, hf⟩ := Prod.mk.injEq .. ▸ hrest
          subst hst
          exact ⟨snap, hsnap, hids.symm, by rw [← hf, hguard]⟩
        · exact absurd h₁ (by simp)
    next hguard =>
      split at h₁
      next snap hsnap =>
        injection h₁ with h₁
        obtain ⟨hids, hrest⟩ := Prod.mk.injEq .. ▸ h₁
        obtain ⟨hst, hf⟩ := Prod.mk.injEq .. ▸ hrest
        subst hst
        refine ⟨snap, hsnap, hids.symm, ?_⟩
        have hg : needsRefresh st t₁ = false := by simpa using hguard
        rw [← hf, hg]
      · exact absurd h₁ (by simp)
  obtain ⟨snap, hc, hids, hf⟩ := hshape
  subst hids
  refine ⟨get_ids_fresh o t₂ st₁ snap hc h₂, ?_, hf⟩
  rw [get_models_fresh o t₂ st₁ snap hc h₂]
  simp [CacheState.cachedModels, hc]

/-- Witness for `ttl_cache_idempotent`: a first call at time 100 from the
initial state refreshes once, and a second call at time 150 (within the
60-second TTL) returns the identical snapshot without fetching. -/
theorem ttl_cache_idempotent_witness :
    get_cached_model_ids sampleOutcome 150 (sampleStateAt 100)
      = Except.ok (["m1"], sampleStateAt 100, false) ∧
    get_models_for_ui sampleOutcome 150 (sampleStateAt 100)
      = Except.ok ((sampleStateAt 100).cachedModels, sampleStateAt 100, false) ∧
    true = (initialCacheState.cache.isNone
      || decide ((100 : Int) - initialCacheState.updatedAt ≥ CACHE_TTL_SECONDS)) :=
  ttl_cache_idempotent sampleOutcome initialCacheState 100 150 ["m1"] (sampleStateAt 100) true
    rfl (by decide)

/-- C8: N callers arriving while the cache is absent or expired, admitted
one at a time by `_cache_lock` with lock-acquisition times `t₀ :: ts`,
trigger exactly one fetch: the first caller refreshes, and every later
caller acquiring the lock within the TTL of that refresh observes the fresh
snapshot and does not re-fetch. -/
theorem lock_coalesces_fetches (o : FetchOutcome) (st snapSt : CacheState) (t₀ : Int)
    (ts : List Int)
    (hexp : needsRefresh st t₀ = true)
    (h₀ : _refresh_cache o t₀ = Except.ok snapSt)
    (hin : ∀ t ∈ ts, t - t₀ < CACHE_TTL_SECONDS) :
    runCallers o st (t₀ :: ts) = (snapSt, 1) := by
  obtain ⟨hup, snap, hc⟩ := refresh_ok_shape o t₀ snapSt h₀
  have hfresh : ∀ ts', (∀ t ∈ ts', t - t₀ < CACHE_TTL_SECONDS) →
      runCallers o snapSt ts' = (snapSt, 0) := by
    intro ts'
    induction ts' with
    | nil => intro _; rfl
    | cons t rest ih =>
      intro hin'
      have h1 : get_cached_model_ids o t snapSt = Except.ok (snap.ids, snapSt, false) :=
        get_ids_fresh o t snapSt snap hc (by rw [hup]; exact hin' t (by simp))
      have h2 := ih (fun u hu => hin' u (by simp [hu]))
      simp [runCallers, h1, h2]
  have hget : get_cached_model_ids o t₀ st = Except.ok (snap.ids, snapSt, true) := by
    simp [get_cached_model_ids, hexp, h₀, hc]
  simp [runCallers, hget, hfresh ts hin]

/-- Witness for `lock_coalesces_fetches`: four serialized callers at times
0, 1, 5 and 59 starting from the empty initial cache perform exactly one
fetch between them and all end on the snapshot refreshed at time 0. -/
theorem lock_coalesces_fetches_witness :
    runCallers sampleOutcome initialCacheState [0, 1, 5, 59] = (sampleStateAt 0, 1) :=
  lock_coalesces_fetches sampleOutcome initialCacheState (sampleStateAt 0) 0 [1, 5, 59]
    rfl rfl (by decide)

theorem computeIds_eq_map_id (ms : List PyVal) (ids : List String)
    (sims : List SimplifiedModel)
    (hi : computeIds ms = Except.ok ids) (hs : computeSimplified ms = Except.ok sims) :
    ids = sims.map SimplifiedModel.id := by
  induction ms generalizing ids sims with
  | nil =>
    simp only [computeIds] at hi
    simp only [computeSimplified] at hs
    injection hi with hi
    injection hs with hs
    subst hi; subst hs; rfl
  | cons m rest ih =>
    cases m with
    | dict items =>
      simp only [computeIds, modelIdIfStr] at hi
      simp only [computeSimplified] at hs
      cases hv : pyDictGet items "id" PyVal.none with
      | str s =>
        rw [hv] at hi hs
        simp only at hi hs
        cases hri : computeIds rest with
        | error e => rw [hri] at hi; exact absurd hi (by simp)
        | ok ridsx =>
          cases hrs : computeSimplified rest with
          | error e => rw [hrs] at hs; exact absurd hs (by simp)
          | ok rsims =>
            rw [hri] at hi; rw [hrs] at hs
            simp only at hi hs
            injection hi with hi
            injection hs with hs
            subst hi; subst hs
            simp [simplifyModel, ih ridsx rsims hri hrs]
      | none => rw [hv] at hi hs; simp only at hi hs; exact ih ids sims hi hs
      | bool b => rw [hv] at hi hs; simp only at hi hs; exact ih ids sims hi hs
      | int n => rw [hv] at hi hs; simp only at hi hs; exact ih ids sims hi hs
      | list es => rw [hv] at hi hs; simp only at hi hs; exact ih ids sims hi hs
      | dict its => rw [hv] at hi hs; simp only at hi hs; exact ih ids sims hi hs
    | none =>
      simp only [computeIds, modelIdIfStr] at hi
      exact absurd hi (by simp)
    | bool b =>
      simp only [computeIds, modelIdIfStr] at hi
      exact absurd hi (by simp)
    | int n =>
      simp only [computeIds, modelIdIfStr] at hi
      exact absurd hi (by simp)
    | str s =>
      simp only [computeIds, modelIdIfStr] at hi
      exact absurd hi (by simp)
    | list es =>
      simp only [computeIds, modelIdIfStr] at hi
      exact absurd hi (by simp)

/-- C10: every snapshot the cache stores is internally consistent: the id
set stored for `get_cached_model_ids` equals, as a set, the ids of the
records stored for `get_models_for_ui`, both being built by `_refresh_cache`
from the same filter keeping exactly the raw records whose `"id"` field is a
string. -/
theorem snapshot_ids_match_models (o : FetchOutcome) (now : Int) (st' : CacheState)
    (snap : CacheSnapshot)
    (h : _refresh_cache o now = Except.ok st') (hc : st'.cache = some snap) :
    snap.ids.toFinset = (snap.models.map SimplifiedModel.id).toFinset := by
  unfold _refresh_cache at h
  split at h
  · exact absurd h (by simp)
  next models hf =>
    split at h
    · exact absurd h (by simp)
    next ids hi =>
      split at h
      · exact absurd h (by simp)
      next sims hs =>
        injection h with h
        subst h
        simp only at hc
        injection hc with hc
        subst hc
        rw [computeIds_eq_map_id models ids sims hi hs]

/-- Witness for `snapshot_ids_match_models`: refreshing on a mixed payload
(two string-id records, one non-string-id record) stores a snapshot whose id
set equals the set of ids of its listing records. -/
theorem snapshot_ids_match_models_witness :
    sampleMixedSnap.ids.toFinset
      = (sampleMixedSnap.models.map SimplifiedModel.id).toFinset :=
  snapshot_ids_match_models sampleMixedOutcome 7
    { cache := some sampleMixedSnap, updatedAt := 7 } sampleMixedSnap rfl rfl

example : get_cached_model_ids (FetchOutcome.payload (PyVal.dict [("data", PyVal.list [PyVal.dict [("id", PyVal.str "m1")]])])) 5 initialCacheState
    = Except.ok (["m1"],
        { cache := some
            { ids := ["m1"]
            , models := [{ id := "m1", name := PyVal.str "m1", context_length := PyVal.none }] }
        , updatedAt := 5 }, true) := rfl

end Blacki
